import Mathlib

/-!
Verification development for the DataElement state-synchronization core
(`src/packages/DataElement/src/DataElement.ts`).

The embedding models the process-wide mutable state touched by
`elementConnected` / `elementDisconnected` / `dispatchChange`:
the RootState key-value store, the `stateRefs` reference counters,
the per-type constructor metadata (`dataProperties`), element instances
with their dynamic properties, and the local / window event listeners
registered by the lifecycle code.  Event dispatch is synchronous and
re-entrant in the source; it is modelled with an explicit fuel parameter,
and a world flag `exhausted` records whether the fuel cutoff was ever hit
(so `exhausted = false` means the dispatch ran to completion).

JavaScript values flowing through the code are modelled by `Val`
(with `vnull` as the null/undefined sentinel); JavaScript numbers used by
the reference counters are modelled by `JsNum` (with an explicit NaN).
A `trace` field logs every event dispatch and every RootState write so
that claims counting events can be stated.
-/

namespace DataElementModel

/-- A JavaScript value as it flows through the data-element code:
the null/absent sentinel, a number, or a string. -/
inductive Val where
  | vnull
  | vnat (n : Nat)
  | vstr (s : String)
deriving DecidableEq, Repr

/-- JavaScript truthiness of a `Val` (null/undefined, 0 and "" are falsy). -/
def Val.truthy : Val → Bool
  | .vnull => false
  | .vnat n => n != 0
  | .vstr s => s != ""

/-- JavaScript string coercion of a `Val` (as used by template literals). -/
def Val.jsString : Val → String
  | .vnull => "null"
  | .vnat n => toString n
  | .vstr s => s

/-- A JavaScript number as stored in `stateRefs`: an integer or NaN. -/
inductive JsNum where
  | num (n : Int)
  | nan
deriving DecidableEq, Repr

/-- JavaScript truthiness of a `JsNum` (0 and NaN are falsy). -/
def JsNum.truthy : JsNum → Bool
  | .num n => n != 0
  | .nan => false

/-- The `detail` payload of a dispatched CustomEvent: no detail,
`{isSyncUpdate: true}`, or `{sourceElement: el}` (by element id). -/
inductive EventDetail where
  | nodetail
  | syncUpdate
  | source (elemId : Nat)
deriving DecidableEq, Repr

/-- Association-list lookup (JavaScript object property read). -/
def alookup {α : Type} : List (String × α) → String → Option α
  | [], _ => none
  | (k', v') :: t, k => if k = k' then some v' else alookup t k

/-- Association-list update (JavaScript object property write):
replaces in place, appends if the key is new. -/
def aset {α : Type} : List (String × α) → String → α → List (String × α)
  | [], k, v => [(k, v)]
  | (k', v') :: t, k, v => if k = k' then (k, v) :: t else (k', v') :: aset t k v

/-- Association-list delete (JavaScript `delete obj[k]`). -/
def adel {α : Type} : List (String × α) → String → List (String × α)
  | [], _ => []
  | (k', v') :: t, k => if k = k' then t else (k', v') :: adel t k

/-- One entry of a constructor's `dataProperties` record
(`DataProperty` in the source): the change-event name and the three
resolved fields written on attach.  `windowEventHandler` is modelled by
the numeric identity of the registered handler closure. -/
structure DataProperty where
  changeEvent : Option String
  statePath : Option String
  windowEventName : Option String
  windowEventHandler : Option Nat
deriving DecidableEq, Repr

instance : Inhabited DataProperty := ⟨⟨none, none, none, none⟩⟩

/-- The static fields of a `DataElementCtor`: `__elementName`,
`stateIdProperty` and the shared per-type `dataProperties` record. -/
structure CtorData where
  elementName : String
  stateIdProperty : String
  dataProperties : List (String × DataProperty)
deriving DecidableEq, Repr

/-- An element instance: its constructor (by key into the world's `ctors`)
and its own dynamic properties. -/
structure Elem where
  typeName : String
  props : List (String × Val)
deriving DecidableEq, Repr

/-- The listener closure registered by `el.addEventListener(changeEvent, ...)`
in `elementConnected` (source lines 198-203), defunctionalized: the captured
element, event name, property name, state path and window event name. -/
structure LocalListener where
  elemId : Nat
  eventName : String
  propertyName : String
  statePath : String
  windowEventName : String
deriving DecidableEq, Repr

/-- The `windowEventHandler` closure registered by
`window.addEventListener(windowEventName, ...)` (source lines 206-213),
defunctionalized, with `id` giving the closure its identity for
`removeEventListener`. -/
structure WindowListener where
  eventName : String
  id : Nat
  elemId : Nat
  propertyName : String
  statePath : String
  changeEvent : String
deriving DecidableEq, Repr

/-- A log entry: an event dispatched on an element, an event dispatched on
`window`, or a `RootState.set` write. -/
inductive LogEntry where
  | elemEvent (elemId : Nat) (name : String) (detail : EventDetail)
  | windowEvent (name : String) (detail : EventDetail)
  | rootSet (path : String) (v : Val)
deriving DecidableEq, Repr

/-- The process-wide state touched by the DataElement lifecycle code. -/
structure World where
  rootState : List (String × Val)
  stateRefs : List (String × JsNum)
  ctors : List (String × CtorData)
  elems : List (Nat × Elem)
  localListeners : List LocalListener
  windowListeners : List WindowListener
  nextId : Nat
  exhausted : Bool
  trace : List LogEntry
deriving DecidableEq, Repr

/-- Append a log entry to the world's trace. -/
def pushTrace (w : World) (e : LogEntry) : World :=
  { w with trace := w.trace ++ [e] }

namespace RootState

/-- Modelled from the spec: the repository's `RootState` module is not under
`src/`; §4.1 states `get(path) -> value or null — returns the stored value,
or a null/empty sentinel if absent. No side effects.` -/
def get (w : World) (path : String) : Val :=
  (alookup w.rootState path).getD .vnull

/-- Modelled from the spec: `set(path, value) -> void — overwrites or creates
the entry unconditionally` (§4.1).  The write is logged in the trace. -/
def set (w : World) (path : String) (v : Val) : World :=
  { w with rootState := aset w.rootState path v,
           trace := w.trace ++ [.rootSet path v] }

/-- Modelled from the spec: `delete(path) -> void — removes the entry;
no-op if absent` (§4.1). -/
def delete (w : World) (path : String) : World :=
  { w with rootState := adel w.rootState path }

end RootState

/-- Lookup of an element by id (`Nat` keys). -/
def alookupNat {α : Type} : List (Nat × α) → Nat → Option α
  | [], _ => none
  | (k', v') :: t, k => if k = k' then some v' else alookupNat t k

/-- Update of an element entry by id (`Nat` keys). -/
def asetNat {α : Type} : List (Nat × α) → Nat → α → List (Nat × α)
  | [], k, v => [(k, v)]
  | (k', v') :: t, k, v => if k = k' then (k, v) :: t else (k', v') :: asetNat t k v

/-- `getProp(el, name)` on an element's dynamic properties; a missing
property reads as the null/undefined sentinel. -/
def elemGetProp (w : World) (elemId : Nat) (name : String) : Val :=
  match alookupNat w.elems elemId with
  | some el => (alookup el.props name).getD .vnull
  | none => .vnull

/-- `setProp(el, name, value)` on an element's dynamic properties. -/
def elemSetProp (w : World) (elemId : Nat) (name : String) (v : Val) : World :=
  match alookupNat w.elems elemId with
  | some el =>
    { w with elems := asetNat w.elems elemId ({ el with props := aset el.props name v }) }
  | none => w

/-- Write a whole `dataProperties` entry of a constructor
(`ctor.dataProperties[propertyName] = ...`). -/
def setDataProperty (w : World) (typeName propertyName : String) (dp : DataProperty) : World :=
  match alookup w.ctors typeName with
  | some c =>
    let c' : CtorData := { c with dataProperties := aset c.dataProperties propertyName dp }
    { w with ctors := aset w.ctors typeName c' }
  | none => w

/-- The target of a synchronous CustomEvent dispatch: an element
(`el.dispatchEvent`) or the window (`window.dispatchEvent`). -/
inductive Target where
  | elem (elemId : Nat)
  | window
deriving DecidableEq, Repr

/-- Synchronous, re-entrant CustomEvent dispatch.

On an element target it runs every local listener registered for that
element and event name (the closure of source lines 198-203: if the event
is not tagged `isSyncUpdate`, push the element's current property value
into RootState and dispatch the global window event tagged with the
element as source).

On the window target it runs every window listener registered for that
event name (the `windowEventHandler` closure of source lines 206-211: if
the event's `sourceElement` is not the listener's own element, pull the
RootState value into the element's property and dispatch the sync-tagged
local change event on it).

`fuel` bounds the re-entrant dispatch depth; hitting 0 sets `exhausted`. -/
def dispatchEvt : Nat → World → Target → String → EventDetail → World
  | 0, w, _, _, _ => { w with exhausted := true }
  | fuel + 1, w, .elem elemId, eventName, detail =>
    let w1 := pushTrace w (.elemEvent elemId eventName detail)
    let ls := w1.localListeners.filter fun l => l.elemId == elemId && l.eventName == eventName
    ls.foldl
      (fun acc l =>
        if detail = .syncUpdate then acc
        else
          let acc1 := RootState.set acc l.statePath (elemGetProp acc l.elemId l.propertyName)
          dispatchEvt fuel acc1 .window l.windowEventName (.source l.elemId))
      w1
  | fuel + 1, w, .window, eventName, detail =>
    let w1 := pushTrace w (.windowEvent eventName detail)
    let ls := w1.windowListeners.filter fun l => l.eventName == eventName
    ls.foldl
      (fun acc l =>
        if detail = .source l.elemId then acc
        else
          let acc1 := elemSetProp acc l.elemId l.propertyName (RootState.get acc l.statePath)
          dispatchEvt fuel acc1 (.elem l.elemId) l.changeEvent .syncUpdate)
      w1

/-- Dispatch of a CustomEvent on an element (`el.dispatchEvent`). -/
def dispatchElem (fuel : Nat) (w : World) (elemId : Nat) (eventName : String)
    (detail : EventDetail) : World :=
  dispatchEvt fuel w (.elem elemId) eventName detail

/-- Dispatch of a CustomEvent on `window` (`window.dispatchEvent`). -/
def dispatchWindow (fuel : Nat) (w : World) (eventName : String)
    (detail : EventDetail) : World :=
  dispatchEvt fuel w .window eventName detail

/-- `triggerSyncEvent(el, changeEvent)` (source lines 229-230): dispatch the
change event on the element with `{detail:{isSyncUpdate:true}}`. -/
def triggerSyncEvent (fuel : Nat) (w : World) (elemId : Nat) (changeEvent : String) : World :=
  dispatchElem fuel w elemId changeEvent .syncUpdate

/-- `triggerGlobalEvent(el, changeEvent)` (source lines 232-233): dispatch the
window event with `{detail:{sourceElement:el}}`. -/
def triggerGlobalEvent (fuel : Nat) (w : World) (elemId : Nat) (eventName : String) : World :=
  dispatchWindow fuel w eventName (.source elemId)

/-- The body of the per-property loop of `elementConnected`
(source lines 170-214), for one `propertyName`: resolve the metadata,
bump the state reference, seed or pull the initial state, register the
local listener, and register (and store) the window event handler. -/
def connectStep (fuel : Nat) (elemId : Nat) (stateIdPath : String) (w : World)
    (propertyName : String) : World :=
  match alookupNat w.elems elemId with
  | none => w
  | some el =>
    match alookup w.ctors el.typeName with
    | none => w
    | some ctor =>
      -- const dp = ctor.dataProperties[propertyName]
      let dp := (alookup ctor.dataProperties propertyName).getD default
      -- const statePath = `${ctor.__elementName}.${propertyName}${stateIdPath}`
      let statePath := ctor.elementName ++ "." ++ propertyName ++ stateIdPath
      -- const changeEvent = dp.changeEvent || `${propertyName}-changed`
      let changeEvent :=
        match dp.changeEvent with
        | some s => if s = "" then propertyName ++ "-changed" else s
        | none => propertyName ++ "-changed"
      -- const windowEventName = `${statePath}-changed`
      let windowEventName := statePath ++ "-changed"
      -- ctor.dataProperties[propertyName] = {...dp, changeEvent, statePath, windowEventName}
      let w := setDataProperty w el.typeName propertyName
        { dp with changeEvent := some changeEvent, statePath := some statePath,
                  windowEventName := some windowEventName }
      -- stateRefs[statePath] = stateRefs[statePath] ? stateRefs[statePath] + 1 : 1
      let newCount : JsNum :=
        match alookup w.stateRefs statePath with
        | some (.num n) => if n != 0 then .num (n + 1) else .num 1
        | some .nan => .num 1
        | none => .num 1
      let w := { w with stateRefs := aset w.stateRefs statePath newCount }
      -- const initialState = RootState.get(statePath);
      -- if null: seed from the element; else: pull and fire the sync event
      let initialState := RootState.get w statePath
      let w :=
        if initialState = .vnull then
          RootState.set w statePath (elemGetProp w elemId propertyName)
        else
          let w := elemSetProp w elemId propertyName initialState
          triggerSyncEvent fuel w elemId changeEvent
      -- el.addEventListener(changeEvent, ...)
      let w := { w with localListeners := w.localListeners ++
        [(⟨elemId, changeEvent, propertyName, statePath, windowEventName⟩ : LocalListener)] }
      -- const windowEventHandler = ...;
      -- ctor.dataProperties[propertyName].windowEventHandler = windowEventHandler;
      -- window.addEventListener(windowEventName, windowEventHandler)
      let hid := w.nextId
      let w := { w with nextId := w.nextId + 1 }
      let w :=
        match alookup w.ctors el.typeName with
        | some c =>
          let dpNow := (alookup c.dataProperties propertyName).getD default
          setDataProperty w el.typeName propertyName ({ dpNow with windowEventHandler := some hid })
        | none => w
      { w with windowListeners := w.windowListeners ++
        [(⟨windowEventName, hid, elemId, propertyName, statePath, changeEvent⟩ : WindowListener)] }

/-- `elementConnected(el)` (source lines 164-216): read the element's
stateId, then run the per-property setup for every declared data property.
The connected middleware pipeline is empty in the modelled scenarios and is
a no-op.  A `fuel` parameter bounds the synchronous event dispatches the
setup can trigger. -/
def elementConnected (fuel : Nat) (w : World) (elemId : Nat) : World :=
  match alookupNat w.elems elemId with
  | none => w
  | some el =>
    match alookup w.ctors el.typeName with
    | none => w
    | some ctor =>
      -- const stateId = getProp(el, ctor.stateIdProperty);
      -- const stateIdPath = stateId ? `.${stateId}` : "";
      let stateId := (alookup el.props ctor.stateIdProperty).getD .vnull
      let stateIdPath := if stateId.truthy then "." ++ stateId.jsString else ""
      let keys := ctor.dataProperties.map Prod.fst
      keys.foldl (connectStep fuel elemId stateIdPath) w

/-- The body of the per-property loop of `elementDisconnected`
(source lines 244-253): decrement the state reference (deleting the
RootState entry when it reaches exactly 0), remove the stored window
event handler, and delete the `windowEventName`/`windowEventHandler`
fields of the shared metadata. -/
def disconnectStep (elemId : Nat) (w : World) (propertyName : String) : World :=
  match alookupNat w.elems elemId with
  | none => w
  | some el =>
    match alookup w.ctors el.typeName with
    | none => w
    | some ctor =>
      -- const dp = ctor.dataProperties[propertyName];
      -- const statePath = dp.statePath as string;
      let dp := (alookup ctor.dataProperties propertyName).getD default
      let statePath := dp.statePath.getD "undefined"
      -- stateRefs[statePath] = stateRefs[statePath] - 1
      let newCount : JsNum :=
        match alookup w.stateRefs statePath with
        | some (.num n) => .num (n - 1)
        | some .nan => .nan
        | none => .nan
      let w := { w with stateRefs := aset w.stateRefs statePath newCount }
      -- stateRefs[statePath] === 0 && RootState.delete(statePath)
      let w := if newCount = .num 0 then RootState.delete w statePath else w
      -- window.removeEventListener(dp.windowEventName, dp.windowEventHandler)
      let w :=
        match dp.windowEventName, dp.windowEventHandler with
        | some name, some hid =>
          { w with windowListeners :=
              w.windowListeners.filter fun l => !(l.eventName == name && l.id == hid) }
        | _, _ => w
      -- delete dp.windowEventName; delete dp.windowEventHandler
      setDataProperty w el.typeName propertyName
        { dp with windowEventName := none, windowEventHandler := none }

/-- `elementDisconnected(el)` (source lines 242-255): run the per-property
teardown for every declared data property.  The disconnected middleware
pipeline is empty in the modelled scenarios and is a no-op. -/
def elementDisconnected (w : World) (elemId : Nat) : World :=
  match alookupNat w.elems elemId with
  | none => w
  | some el =>
    match alookup w.ctors el.typeName with
    | none => w
    | some ctor =>
      let keys := ctor.dataProperties.map Prod.fst
      keys.foldl (disconnectStep elemId) w

/-- `dispatchChange(prop)` (source lines 100-103): dispatch a genuine
(no-detail) CustomEvent named by the property's registered change event. -/
def dispatchChange (fuel : Nat) (w : World) (elemId : Nat) (prop : String) : World :=
  match alookupNat w.elems elemId with
  | none => w
  | some el =>
    match alookup w.ctors el.typeName with
    | none => w
    | some ctor =>
      let ce :=
        match alookup ctor.dataProperties prop with
        | some dp => dp.changeEvent.getD "undefined"
        | none => "undefined"
      dispatchElem fuel w elemId ce .nodetail

/-- The canonical data-element constructor used by the claim scenarios:
element name `test-element`, the default `stateIdProperty = "stateId"`,
and the default declared data property
`state: {changeEvent: "state-changed"}` of the `DataElement` base class. -/
def testCtor : CtorData :=
  { elementName := "test-element"
    stateIdProperty := "stateId"
    dataProperties := [("state",
      { changeEvent := some "state-changed", statePath := none,
        windowEventName := none, windowEventHandler := none })] }

/-- A fresh world holding two detached `test-element` instances (ids 1, 2)
with the given property lists, an empty RootState, no reference counters,
no listeners and an empty trace. -/
def initWorld (p1 p2 : List (String × Val)) : World :=
  { rootState := []
    stateRefs := []
    ctors := [("test-element", testCtor)]
    elems := [(1, ⟨"test-element", p1⟩), (2, ⟨"test-element", p2⟩)]
    localListeners := []
    windowListeners := []
    nextId := 0
    exhausted := false
    trace := [] }

/-- A fresh world as `initWorld` but with a given initial RootState. -/
def initWorldRoot (p1 : List (String × Val)) (root : List (String × Val)) : World :=
  { initWorld p1 [] with rootState := root }

/-- An attach or detach of instance 1 or instance 2. -/
inductive Op where
  | a1
  | a2
  | d1
  | d2
deriving DecidableEq, Repr, Fintype

/-- Apply one lifecycle operation to the world. -/
def applyOp (fuel : Nat) (w : World) : Op → World
  | .a1 => elementConnected fuel w 1
  | .a2 => elementConnected fuel w 2
  | .d1 => elementDisconnected w 1
  | .d2 => elementDisconnected w 2

/-- Run a schedule of lifecycle operations. -/
def runOps (fuel : Nat) (w : World) (ops : List Op) : World :=
  ops.foldl (applyOp fuel) w

/-- Well-formedness of a schedule given which instances are attached:
an instance only attaches while detached and only detaches while attached. -/
def wfAux : Bool → Bool → List Op → Bool
  | _, _, [] => true
  | b1, b2, .a1 :: t => !b1 && wfAux true b2 t
  | b1, b2, .d1 :: t => b1 && wfAux false b2 t
  | b1, b2, .a2 :: t => !b2 && wfAux b1 true t
  | b1, b2, .d2 :: t => b2 && wfAux b1 false t

/-- A well-formed schedule starting from both instances detached. -/
def wf (ops : List Op) : Bool := wfAux false false ops

/-- Which instances are attached after a schedule. -/
def attachedPair (ops : List Op) : Bool × Bool :=
  ops.foldl
    (fun p o =>
      match o with
      | .a1 => (true, p.2)
      | .d1 => (false, p.2)
      | .a2 => (p.1, true)
      | .d2 => (p.1, false))
    (false, false)

/-- The number of currently-attached instances after a schedule. -/
def attachedCount (ops : List Op) : Int :=
  (if (attachedPair ops).1 then 1 else 0) + (if (attachedPair ops).2 then 1 else 0)

/-- How many attach operations a schedule contains. -/
def nAttachOps (ops : List Op) : Nat :=
  ops.countP fun o => o == .a1 || o == .a2

/-- The reference count stored for a path, read as an integer
(0 when the entry is absent or NaN). -/
def refCountD (w : World) (path : String) : Int :=
  match alookup w.stateRefs path with
  | some (.num n) => n
  | _ => 0

/-- The part of `w2`'s trace produced after `w1` (`w1` a prior world). -/
def traceDelta (w1 w2 : World) : List LogEntry :=
  w2.trace.drop w1.trace.length

/-- Is this log entry an event dispatched on the given element? -/
def isElemEventOn (e : Nat) : LogEntry → Bool
  | .elemEvent e' _ _ => e' == e
  | _ => false

/-- Is this log entry a sync-tagged event dispatched on the given element? -/
def isSyncEventOn (e : Nat) : LogEntry → Bool
  | .elemEvent e' _ .syncUpdate => e' == e
  | _ => false

/-- Is this log entry a window event? -/
def isWindowEvent : LogEntry → Bool
  | .windowEvent _ _ => true
  | _ => false

/-- Is this log entry a RootState write? -/
def isRootSetEntry : LogEntry → Bool
  | .rootSet _ _ => true
  | _ => false

/-- The shared state path of the `state` property of a `test-element`
instance with no stateId. -/
def sharedPath : String := "test-element.state"

/-- The window event name for `sharedPath`. -/
def sharedWindowEventName : String := "test-element.state-changed"

/-- The C1/C5/C6 scenario world: two `test-element` instances with no
stateId, sharing the state path `test-element.state`. -/
def c1World : World := initWorld [("state", .vnat 5)] [("state", .vnat 7)]

/-- The C2 scenario: both instances attached (instance 2 pulled instance 1's
seeded value on attach), then instance 1's `state` set to a new value. -/
def c2Attached : World := runOps 8 c1World [.a1, .a2]

/-- Instance 1's property mutated to a new value, before it fires its
genuine change event. -/
def c2Mutated : World := elemSetProp c2Attached 1 "state" (.vnat 6)

/-- Instance 1 fires its genuine (non-sync-tagged) change event. -/
def c2Fired : World := dispatchChange 8 c2Mutated 1 "state"

/-- A world with one detached `test-element` instance whose `state` is `u`,
and a RootState already holding `v` under the shared path. -/
def c3World (u v : Val) : World := initWorldRoot [("state", u)] [(sharedPath, v)]

/-- The `c3World` after the instance attaches. -/
def c3After (u v : Val) : World := elementConnected 8 (c3World u v) 1

/-- The resolved `dataProperties` entry of a constructor in a world. -/
def dataPropertyOf (w : World) (typeName prop : String) : DataProperty :=
  match alookup w.ctors typeName with
  | some c => (alookup c.dataProperties prop).getD default
  | none => default

/-- Does the element own the named dynamic property (present, whatever its
value)? -/
def elemHasProp (w : World) (elemId : Nat) (name : String) : Bool :=
  match alookupNat w.elems elemId with
  | some el => (alookup el.props name).isSome
  | none => false

/-- A world with one detached `test-element` instance that has no stateId
property at all. -/
def c4WorldAbsent : World := initWorld [("state", .vnat 5)] []

/-- A world with one detached `test-element` instance whose `stateId`
property holds the given value. -/
def c4WorldWith (sv : Val) : World := initWorld [("stateId", sv), ("state", .vnat 5)] []

/-- Is the operation a detach? -/
def isDetach : Op → Bool
  | .d1 => true
  | .d2 => true
  | _ => false

/-- The C5 counterexample world: two `test-element` instances with the
distinct stateId values `"a"` and `"b"`, hence distinct state paths. -/
def c5World : World :=
  initWorld [("stateId", .vstr "a"), ("state", .vnat 5)]
            [("stateId", .vstr "b"), ("state", .vnat 7)]

/-- A world with a single relevant `test-element` instance (id 1) whose
`state` is 5, used by the C8/C9 scenarios. -/
def c8World : World := initWorld [("state", .vnat 5)] []

/-- The `c8World` after instance 1 attaches. -/
def c8Attached : World := elementConnected 8 c8World 1

/-- A change event with the given detail fired on the attached instance. -/
def c8Fired (d : EventDetail) : World := dispatchElem 8 c8Attached 1 "state-changed" d

/-- The C9 scenario: instance 1 attaches and then detaches. -/
def c9Detached : World := elementDisconnected c8Attached 1

/-- The detached instance fires a genuine change event. -/
def c9Fired : World := dispatchChange 8 c9Detached 1 "state"

/-- The C7 scenario world: two `test-element` instances with the given
stateId values. -/
def c7World (s1 s2 : String) : World :=
  initWorld [("stateId", .vstr s1), ("state", .vnat 5)]
            [("stateId", .vstr s2), ("state", .vnat 7)]

/-- The C7 scenario after both instances attach. -/
def c7Attached (s1 s2 : String) : World := runOps 8 (c7World s1 s2) [.a1, .a2]

/-- Instance 1's property mutated before it fires its change event. -/
def c7Mutated (s1 s2 : String) : World := elemSetProp (c7Attached s1 s2) 1 "state" (.vnat 9)

/-- Instance 1 fires its genuine change event. -/
def c7Fired (s1 s2 : String) : World := dispatchChange 8 (c7Mutated s1 s2) 1 "state"

/-- C1: for every sequence of paired attach/detach operations on two
instances of the same type sharing one state path, at every prefix the
reference count for that path equals the number of currently-attached
instances; whenever both are attached it is stored as 2, and whenever all
attached instances have detached again the stored count is 0 and the
RootState entry for the path has been deleted. -/
theorem c1_refcount_invariant (o0 o1 o2 o3 : Op) (k : Fin 5)
    (hwf : wf [o0, o1, o2, o3] = true) :
    refCountD (runOps 8 c1World (List.take k.val [o0, o1, o2, o3])) sharedPath
      = attachedCount (List.take k.val [o0, o1, o2, o3])
    ∧ (attachedCount (List.take k.val [o0, o1, o2, o3]) = 2 →
        alookup (runOps 8 c1World (List.take k.val [o0, o1, o2, o3])).stateRefs sharedPath
          = some (JsNum.num 2))
    ∧ (attachedCount (List.take k.val [o0, o1, o2, o3]) = 0 →
        nAttachOps (List.take k.val [o0, o1, o2, o3]) ≠ 0 →
        alookup (runOps 8 c1World (List.take k.val [o0, o1, o2, o3])).stateRefs sharedPath
          = some (JsNum.num 0)
        ∧ alookup (runOps 8 c1World (List.take k.val [o0, o1, o2, o3])).rootState sharedPath
          = none) := by
  revert hwf
  cases o0 <;> cases o1 <;> cases o2 <;> cases o3 <;> revert k <;> decide

/-- Witness for C1 at the schedule attach 1, attach 2, detach 1, detach 2,
checked at the full prefix. -/
theorem c1_refcount_invariant_witness :
    wf [Op.a1, Op.a2, Op.d1, Op.d2] = true
    ∧ (refCountD (runOps 8 c1World (List.take 4 [Op.a1, Op.a2, Op.d1, Op.d2])) sharedPath
        = attachedCount (List.take 4 [Op.a1, Op.a2, Op.d1, Op.d2])
      ∧ (attachedCount (List.take 4 [Op.a1, Op.a2, Op.d1, Op.d2]) = 2 →
          alookup (runOps 8 c1World
            (List.take 4 [Op.a1, Op.a2, Op.d1, Op.d2])).stateRefs sharedPath
            = some (JsNum.num 2))
      ∧ (attachedCount (List.take 4 [Op.a1, Op.a2, Op.d1, Op.d2]) = 0 →
          nAttachOps (List.take 4 [Op.a1, Op.a2, Op.d1, Op.d2]) ≠ 0 →
          alookup (runOps 8 c1World
            (List.take 4 [Op.a1, Op.a2, Op.d1, Op.d2])).stateRefs sharedPath
            = some (JsNum.num 0)
          ∧ alookup (runOps 8 c1World
            (List.take 4 [Op.a1, Op.a2, Op.d1, Op.d2])).rootState sharedPath
            = none)) :=
  ⟨by decide, c1_refcount_invariant .a1 .a2 .d1 .d2 (4 : Fin 5) (by decide)⟩

/-- C2: with instances 1 and 2 attached to the same state path, when
instance 1 fires a genuine (non-sync-tagged) change event for `state`,
instance 2 receives exactly one sync update — its property is set from
RootState and exactly one sync-tagged change event is dispatched on it —
that update causes no further RootState write and no further global event
(one RootState write and one window event in total, and no sync event back
on instance 1), and the re-entrant dispatch terminates: it never reaches
the fuel cutoff and the result is independent of any larger fuel. -/
theorem c2_sync_no_loop :
    elemGetProp c2Fired 2 "state" = .vnat 6
    ∧ RootState.get c2Fired sharedPath = .vnat 6
    ∧ ((traceDelta c2Mutated c2Fired).filter (isSyncEventOn 2)).length = 1
    ∧ ((traceDelta c2Mutated c2Fired).filter (isElemEventOn 2)).length = 1
    ∧ ((traceDelta c2Mutated c2Fired).filter isRootSetEntry).length = 1
    ∧ ((traceDelta c2Mutated c2Fired).filter isWindowEvent).length = 1
    ∧ ((traceDelta c2Mutated c2Fired).filter (isSyncEventOn 1)).length = 0
    ∧ c2Fired.exhausted = false
    ∧ dispatchChange 20 c2Mutated 1 "state" = c2Fired := by
  decide

/-- C3: on attach, for the declared property `state`: if `RootState.get`
returns the null sentinel, RootState is seeded with the element's current
value and no change event is dispatched on the element; otherwise the
element's property is overwritten with the stored value and exactly one
sync-tagged change event is dispatched on it. -/
theorem c3_initial_state (u v : Val) :
    (v = .vnull →
      alookup (c3After u v).rootState sharedPath = some u
      ∧ elemGetProp (c3After u v) 1 "state" = u
      ∧ ((traceDelta (c3World u v) (c3After u v)).filter (isElemEventOn 1)).length = 0)
    ∧ (v ≠ .vnull →
      elemGetProp (c3After u v) 1 "state" = v
      ∧ ((traceDelta (c3World u v) (c3After u v)).filter (isSyncEventOn 1)).length = 1
      ∧ ((traceDelta (c3World u v) (c3After u v)).filter (isElemEventOn 1)).length = 1) := by
  cases v with
  | vnull => exact ⟨fun _ => ⟨rfl, rfl, rfl⟩, fun h => absurd rfl h⟩
  | vnat n => exact ⟨(fun h => nomatch h), fun _ => ⟨rfl, rfl, rfl⟩⟩
  | vstr s => exact ⟨(fun h => nomatch h), fun _ => ⟨rfl, rfl, rfl⟩⟩

/-- Witness for C3 at a concrete stored value. -/
theorem c3_initial_state_witness :
    elemGetProp (c3After (.vnat 1) (.vnat 2)) 1 "state" = .vnat 2
    ∧ ((traceDelta (c3World (.vnat 1) (.vnat 2))
        (c3After (.vnat 1) (.vnat 2))).filter (isSyncEventOn 1)).length = 1
    ∧ ((traceDelta (c3World (.vnat 1) (.vnat 2))
        (c3After (.vnat 1) (.vnat 2))).filter (isElemEventOn 1)).length = 1 :=
  (c3_initial_state (.vnat 1) (.vnat 2)).2 (by decide)

/-- C10: a stored RootState value of null is indistinguishable from an
absent entry at attach time: the entry is present and holds null before
attach, yet the pull branch does not run — the element's property is not
overwritten and no change event is dispatched — and the seed branch
overwrites RootState with the element's own current value. -/
theorem c10_null_reseeded (u : Val) :
    alookup (c3World u .vnull).rootState sharedPath = some .vnull
    ∧ alookup (c3After u .vnull).rootState sharedPath = some u
    ∧ elemGetProp (c3After u .vnull) 1 "state" = u
    ∧ ((traceDelta (c3World u .vnull) (c3After u .vnull)).filter (isElemEventOn 1)).length = 0 := by
  exact ⟨rfl, rfl, rfl, rfl⟩

/-- Counterexample to C4 as stated: an instance whose `stateId` property is
present but holds the empty string attaches, and the computed state path is
`test-element.state`, not the claimed
`{typeName}.{propertyName}.{stateId} = test-element.state.` — the code
tests JavaScript truthiness, not presence. -/
theorem c4_counterexample :
    elemHasProp (c4WorldWith (.vstr "")) 1 "stateId" = true
    ∧ (dataPropertyOf (elementConnected 8 (c4WorldWith (.vstr "")) 1)
        "test-element" "state").statePath = some "test-element.state"
    ∧ ("test-element.state" : String)
        ≠ "test-element" ++ "." ++ "state" ++ "." ++ (Val.vstr "").jsString := by
  decide

/-- C4 as amended: on attach the computed state path is
`{typeName}.{propertyName}` when the instance's `stateId` property is
absent or falsy (for example the empty string), and
`{typeName}.{propertyName}.{stateId}` when it is present and truthy
(for example any non-empty string); the window event name is the state
path followed by `-changed`. -/
theorem c4_amended_paths (s : String) (hs : s ≠ "") :
    (dataPropertyOf (elementConnected 8 c4WorldAbsent 1) "test-element" "state").statePath
      = some "test-element.state"
    ∧ (dataPropertyOf (elementConnected 8 c4WorldAbsent 1) "test-element" "state").windowEventName
      = some "test-element.state-changed"
    ∧ (dataPropertyOf (elementConnected 8 (c4WorldWith (.vstr "")) 1)
        "test-element" "state").statePath = some "test-element.state"
    ∧ (dataPropertyOf (elementConnected 8 (c4WorldWith (.vstr "")) 1)
        "test-element" "state").windowEventName = some "test-element.state-changed"
    ∧ (dataPropertyOf (elementConnected 8 (c4WorldWith (.vstr s)) 1)
        "test-element" "state").statePath = some ("test-element.state." ++ s)
    ∧ (dataPropertyOf (elementConnected 8 (c4WorldWith (.vstr s)) 1)
        "test-element" "state").windowEventName
      = some ("test-element.state." ++ s ++ "-changed") := by
  rcases s with ⟨_ | ⟨c, cs⟩⟩
  · exact absurd rfl hs
  · exact ⟨by decide, by decide, by decide, by decide, rfl, rfl⟩

/-- Witness for C4 (amended) at the stateId `"a"`. -/
theorem c4_amended_paths_witness :
    (dataPropertyOf (elementConnected 8 (c4WorldWith (.vstr "a")) 1)
        "test-element" "state").statePath = some ("test-element.state." ++ "a")
    ∧ (dataPropertyOf (elementConnected 8 (c4WorldWith (.vstr "a")) 1)
        "test-element" "state").windowEventName
      = some ("test-element.state." ++ "a" ++ "-changed") :=
  ⟨(c4_amended_paths "a" (by decide)).2.2.2.2.1,
   (c4_amended_paths "a" (by decide)).2.2.2.2.2⟩

/-- Counterexample to C5 as stated: two instances of one type with
distinct stateIds `"a"` and `"b"` attach in order, then instance 1
detaches.  Its detach reads the shared metadata last written by instance
2's attach, so it decrements the counter of instance 2's path
`test-element.state.b` (instance 1's own path keeps count 1) and removes
the window listener registered under instance 2's window event name,
leaving only the listener under instance 1's own name registered. -/
theorem c5_counterexample :
    refCountD (runOps 8 c5World [.a1, .a2, .d1]) "test-element.state.a" = 1
    ∧ refCountD (runOps 8 c5World [.a1, .a2, .d1]) "test-element.state.b" = 0
    ∧ refCountD (runOps 8 c5World [.a1, .a2]) "test-element.state.a" = 1
    ∧ refCountD (runOps 8 c5World [.a1, .a2]) "test-element.state.b" = 1
    ∧ (runOps 8 c5World [.a1, .a2, .d1]).windowListeners.map WindowListener.eventName
        = ["test-element.state.a-changed"] := by
  decide

/-- C5 as amended: for two instances of one element type sharing one state
path, at every detach of a well-formed interleaving the Reference Counter
for the shared path (each instance's own path) is decremented by exactly
one; every registered global listener is registered under the shared
window event name, and the detach removes exactly the listener stored in
the shared per-type metadata — one listener when a handler is stored,
none when a preceding detach already cleared it. -/
theorem c5_amended_detach (o0 o1 o2 o3 : Op) (k : Fin 4)
    (hwf : wf [o0, o1, o2, o3] = true)
    (hdet : isDetach (List.getD [o0, o1, o2, o3] k.val .a1) = true) :
    refCountD (runOps 8 c1World (List.take (k.val + 1) [o0, o1, o2, o3])) sharedPath
      = refCountD (runOps 8 c1World (List.take k.val [o0, o1, o2, o3])) sharedPath - 1
    ∧ ((runOps 8 c1World (List.take k.val [o0, o1, o2, o3])).windowListeners.all
        fun l => l.eventName == sharedWindowEventName) = true
    ∧ ((dataPropertyOf (runOps 8 c1World (List.take k.val [o0, o1, o2, o3]))
          "test-element" "state").windowEventHandler.isSome = true →
        (runOps 8 c1World (List.take (k.val + 1) [o0, o1, o2, o3])).windowListeners.length + 1
          = (runOps 8 c1World (List.take k.val [o0, o1, o2, o3])).windowListeners.length)
    ∧ ((dataPropertyOf (runOps 8 c1World (List.take k.val [o0, o1, o2, o3]))
          "test-element" "state").windowEventHandler.isSome = false →
        (runOps 8 c1World (List.take (k.val + 1) [o0, o1, o2, o3])).windowListeners.length
          = (runOps 8 c1World (List.take k.val [o0, o1, o2, o3])).windowListeners.length) := by
  revert hwf hdet
  cases o0 <;> cases o1 <;> cases o2 <;> cases o3 <;> revert k <;> decide

/-- Witness for C5 (amended) at the schedule attach 1, attach 2, detach 1,
detach 2, checked at the first detach. -/
theorem c5_amended_detach_witness :
    wf [Op.a1, Op.a2, Op.d1, Op.d2] = true
    ∧ isDetach (List.getD [Op.a1, Op.a2, Op.d1, Op.d2] 2 .a1) = true
    ∧ refCountD (runOps 8 c1World (List.take 3 [Op.a1, Op.a2, Op.d1, Op.d2])) sharedPath
      = refCountD (runOps 8 c1World (List.take 2 [Op.a1, Op.a2, Op.d1, Op.d2])) sharedPath - 1 :=
  ⟨by decide, by decide,
   (c5_amended_detach .a1 .a2 .d1 .d2 (2 : Fin 4) (by decide) (by decide)).1⟩

/-- Counterexample to C6 as stated: after a plain attach/detach cycle the
shared metadata still holds the resolved `statePath`; only
`windowEventName` and `windowEventHandler` were cleared by the detach. -/
theorem c6_counterexample :
    (dataPropertyOf (runOps 8 c1World [.a1, .d1]) "test-element" "state").windowEventName = none
    ∧ (dataPropertyOf (runOps 8 c1World [.a1, .d1]) "test-element" "state").windowEventHandler
        = none
    ∧ (dataPropertyOf (runOps 8 c1World [.a1, .d1]) "test-element" "state").statePath
        = some "test-element.state" := by
  decide

/-- C6 as amended: on every detach the two resolved fields
`windowEventName` and `windowEventHandler` are cleared from the shared
per-type record, while the resolved `statePath` is left in place. -/
theorem c6_amended_detach_clears (o0 o1 o2 o3 : Op) (k : Fin 4)
    (hwf : wf [o0, o1, o2, o3] = true)
    (hdet : isDetach (List.getD [o0, o1, o2, o3] k.val .a1) = true) :
    (dataPropertyOf (runOps 8 c1World (List.take (k.val + 1) [o0, o1, o2, o3]))
        "test-element" "state").windowEventName = none
    ∧ (dataPropertyOf (runOps 8 c1World (List.take (k.val + 1) [o0, o1, o2, o3]))
        "test-element" "state").windowEventHandler = none
    ∧ (dataPropertyOf (runOps 8 c1World (List.take (k.val + 1) [o0, o1, o2, o3]))
        "test-element" "state").statePath = some sharedPath := by
  revert hwf hdet
  cases o0 <;> cases o1 <;> cases o2 <;> cases o3 <;> revert k <;> decide

/-- Witness for C6 (amended) at the schedule attach 1, detach 1, attach 2,
detach 2, checked at the first detach. -/
theorem c6_amended_detach_clears_witness :
    wf [Op.a1, Op.d1, Op.a2, Op.d2] = true
    ∧ isDetach (List.getD [Op.a1, Op.d1, Op.a2, Op.d2] 1 .a1) = true
    ∧ (dataPropertyOf (runOps 8 c1World (List.take 2 [Op.a1, Op.d1, Op.a2, Op.d2]))
        "test-element" "state").windowEventName = none
    ∧ (dataPropertyOf (runOps 8 c1World (List.take 2 [Op.a1, Op.d1, Op.a2, Op.d2]))
        "test-element" "state").windowEventHandler = none
    ∧ (dataPropertyOf (runOps 8 c1World (List.take 2 [Op.a1, Op.d1, Op.a2, Op.d2]))
        "test-element" "state").statePath = some sharedPath := by
  refine ⟨by decide, by decide, ?_, ?_, ?_⟩
  · exact (c6_amended_detach_clears .a1 .d1 .a2 .d2 (1 : Fin 4) (by decide) (by decide)).1
  · exact (c6_amended_detach_clears .a1 .d1 .a2 .d2 (1 : Fin 4) (by decide) (by decide)).2.1
  · exact (c6_amended_detach_clears .a1 .d1 .a2 .d2 (1 : Fin 4) (by decide) (by decide)).2.2

/-- C8: the local change-event listener registered on attach, on any change
event not tagged as a sync-originated update, writes the element's current
property value into RootState under the captured state path (exactly one
RootState write) and dispatches exactly one global event named
`windowEventName` whose detail carries the element as origin. -/
theorem c8_local_listener_pushes (d : EventDetail) (hd : d ≠ .syncUpdate) :
    ((traceDelta c8Attached (c8Fired d)).filter isRootSetEntry)
      = [.rootSet sharedPath (.vnat 5)]
    ∧ RootState.get (c8Fired d) sharedPath = .vnat 5
    ∧ ((traceDelta c8Attached (c8Fired d)).filter isWindowEvent)
      = [.windowEvent sharedWindowEventName (.source 1)] := by
  cases d with
  | nodetail => exact ⟨rfl, rfl, rfl⟩
  | syncUpdate => exact absurd rfl hd
  | source j => exact ⟨rfl, rfl, rfl⟩

/-- Witness for C8 at a genuine no-detail change event. -/
theorem c8_local_listener_pushes_witness :
    ((traceDelta c8Attached (c8Fired .nodetail)).filter isRootSetEntry)
      = [.rootSet sharedPath (.vnat 5)]
    ∧ RootState.get (c8Fired .nodetail) sharedPath = .vnat 5
    ∧ ((traceDelta c8Attached (c8Fired .nodetail)).filter isWindowEvent)
      = [.windowEvent sharedWindowEventName (.source 1)] :=
  c8_local_listener_pushes .nodetail (by decide)

/-- `setDataProperty` does not touch the local listeners. -/
theorem setDataProperty_localListeners (w : World) (t p : String) (dp : DataProperty) :
    (setDataProperty w t p dp).localListeners = w.localListeners := by
  unfold setDataProperty
  split <;> rfl

/-- One disconnect step does not touch the local listeners. -/
theorem disconnectStep_localListeners (e : Nat) (w : World) (p : String) :
    (disconnectStep e w p).localListeners = w.localListeners := by
  unfold disconnectStep
  split
  · rfl
  · split
    · rfl
    · rw [setDataProperty_localListeners]
      split <;> split <;> rfl

/-- A fold of local-listener-preserving steps preserves the local listeners. -/
theorem foldl_localListeners {β : Type} (f : World → β → World)
    (hf : ∀ w b, (f w b).localListeners = w.localListeners) :
    ∀ (l : List β) (w : World), (l.foldl f w).localListeners = w.localListeners := by
  intro l
  induction l with
  | nil => intro w; rfl
  | cons b t ih => intro w; rw [List.foldl_cons, ih, hf]

/-- C9: detach never removes the local change-event listener added during
attach — `elementDisconnected` leaves the local listeners of any world
unchanged — and concretely, after an attach/detach cycle that deleted the
RootState entry and zeroed the reference count, a genuine change event
fired on the detached element still writes its current property value into
RootState at the previously resolved state path, re-creating the deleted
entry, and still dispatches the global window event. -/
theorem c9_detached_listener_leak :
    (∀ (w : World) (e : Nat),
      (elementDisconnected w e).localListeners = w.localListeners)
    ∧ c9Detached.localListeners = c8Attached.localListeners
    ∧ alookup c9Detached.rootState sharedPath = none
    ∧ refCountD c9Detached sharedPath = 0
    ∧ ((traceDelta c9Detached c9Fired).filter isRootSetEntry)
      = [.rootSet sharedPath (.vnat 5)]
    ∧ alookup c9Fired.rootState sharedPath = some (.vnat 5)
    ∧ ((traceDelta c9Detached c9Fired).filter isWindowEvent)
      = [.windowEvent sharedWindowEventName (.source 1)] := by
  refine ⟨?_, by decide, by decide, by decide, by decide, by decide, by decide⟩
  intro w e
  unfold elementDisconnected
  split
  · rfl
  · split
    · rfl
    · exact foldl_localListeners _ (disconnectStep_localListeners e) _ w

/-- Appending on the left preserves string inequality. -/
theorem appendRightNe (p : String) {a b : String} (h : a ≠ b) : p ++ a ≠ p ++ b := by
  intro he
  have hd : p.data ++ a.data = p.data ++ b.data := by
    have hx := congrArg String.data he
    simpa [String.data_append] using hx
  exact h (String.ext (List.append_cancel_left hd))

/-- Appending on the right preserves string inequality. -/
theorem appendLeftNe (q : String) {a b : String} (h : a ≠ b) : a ++ q ≠ b ++ q := by
  intro he
  have hd : a.data ++ q.data = b.data ++ q.data := by
    have hx := congrArg String.data he
    simpa [String.data_append] using hx
  exact h (String.ext (List.append_cancel_right hd))

set_option maxHeartbeats 4000000 in
/-- C7: two instances of the same element type attached with distinct
non-empty stateId values resolve distinct state paths for the declared
property, and a genuine change event fired on instance 1 causes no sync
update on instance 2: no element's properties change (in particular
instance 2's property is not written) and no change event at all is
dispatched on instance 2. -/
theorem c7_distinct_state_ids (s1 s2 : String)
    (h1 : s1 ≠ "") (h2 : s2 ≠ "") (hne : s1 ≠ s2) :
    (c7Attached s1 s2).localListeners.map LocalListener.statePath
      = ["test-element.state." ++ s1, "test-element.state." ++ s2]
    ∧ ("test-element.state." ++ s1) ≠ ("test-element.state." ++ s2)
    ∧ elemGetProp (c7Fired s1 s2) 2 "state" = .vnat 7
    ∧ (c7Fired s1 s2).elems = (c7Mutated s1 s2).elems
    ∧ ((traceDelta (c7Mutated s1 s2) (c7Fired s1 s2)).filter (isElemEventOn 2)).length = 0 := by
  have hb1 : (s1 != "") = true := by simpa using h1
  have hb2 : (s2 != "") = true := by simpa using h2
  have hp12 : ¬("test-element.state" ++ ("." ++ s1) = "test-element.state" ++ ("." ++ s2)) :=
    appendRightNe "test-element.state" (appendRightNe "." hne)
  have hp21 : ¬("test-element.state" ++ ("." ++ s2) = "test-element.state" ++ ("." ++ s1)) :=
    appendRightNe "test-element.state" (appendRightNe "." (Ne.symm hne))
  have hw21 : ¬(("test-element.state" ++ ("." ++ s2)) ++ "-changed"
      = ("test-element.state" ++ ("." ++ s1)) ++ "-changed") :=
    appendLeftNe "-changed" hp21
  refine ⟨?_, ?_, ?_, ?_, ?_⟩
  · simp [c7Attached, c7World, runOps, applyOp, initWorld, testCtor,
      elementConnected, connectStep, alookupNat, alookup, aset, asetNat, Val.truthy,
      Val.jsString, hb1, hb2, hp12, hp21, setDataProperty, RootState.get, RootState.set,
      elemGetProp, elemSetProp, pushTrace, triggerSyncEvent, dispatchElem, dispatchEvt]
    exact ⟨rfl, rfl⟩
  · exact fun he => hp12 (by
      have hx := congrArg String.data he
      apply String.ext
      simpa [String.data_append] using hx)
  · simp [c7Fired, c7Mutated, c7Attached, c7World, runOps, applyOp, initWorld, testCtor,
      elementConnected, connectStep, alookupNat, alookup, aset, asetNat, Val.truthy,
      Val.jsString, hb1, hb2, hp12, hp21, hw21, setDataProperty, RootState.get, RootState.set,
      elemGetProp, elemSetProp, pushTrace, triggerSyncEvent, dispatchElem, dispatchEvt,
      dispatchChange]
  · simp [c7Fired, c7Mutated, c7Attached, c7World, runOps, applyOp, initWorld, testCtor,
      elementConnected, connectStep, alookupNat, alookup, aset, asetNat, Val.truthy,
      Val.jsString, hb1, hb2, hp12, hp21, hw21, setDataProperty, RootState.get, RootState.set,
      elemGetProp, elemSetProp, pushTrace, triggerSyncEvent, dispatchElem, dispatchEvt,
      dispatchChange]
  · simp [c7Fired, c7Mutated, c7Attached, c7World, runOps, applyOp, initWorld, testCtor,
      elementConnected, connectStep, alookupNat, alookup, aset, asetNat, Val.truthy,
      Val.jsString, hb1, hb2, hp12, hp21, hw21, setDataProperty, RootState.get, RootState.set,
      elemGetProp, elemSetProp, pushTrace, triggerSyncEvent, dispatchElem, dispatchEvt,
      dispatchChange, traceDelta, isElemEventOn]

/-- Witness for C7 at the stateIds `"a"` and `"b"`. -/
theorem c7_distinct_state_ids_witness :
    (c7Attached "a" "b").localListeners.map LocalListener.statePath
      = ["test-element.state." ++ "a", "test-element.state." ++ "b"]
    ∧ ("test-element.state." ++ "a") ≠ ("test-element.state." ++ "b")
    ∧ elemGetProp (c7Fired "a" "b") 2 "state" = .vnat 7
    ∧ (c7Fired "a" "b").elems = (c7Mutated "a" "b").elems
    ∧ ((traceDelta (c7Mutated "a" "b") (c7Fired "a" "b")).filter (isElemEventOn 2)).length = 0 :=
  c7_distinct_state_ids "a" "b" (by decide) (by decide) (by decide)

end DataElementModel
